import Mathlib

/-!
Shallow embedding of `src/sanity.py`, the configuration-driven API
health-check runner.  The embedding covers the variable-chaining and
request-templating engine: the environment store, template substitution
(lines 50-52), payload loading (lines 54-57), the step executor
`fetch_api_data` (lines 39-81) and the run orchestrator loop in `main`
(lines 129-133).

External effects are modelled as explicit oracles:
  * the HTTP client `requests.request` is a function from the request data
    to `Except String HttpResponse`; an `Except.error` models a raised
    exception (e.g. a connection error) and the carried string is the
    Python exception text `str(e)`;
  * `response.json()` is modelled by the field `HttpResponse.bodyJson`:
    `some j` when the body parses as JSON, `none` when parsing raises
    `JSONDecodeError`;
  * `load_payload` catches all of its own exceptions and always returns a
    JSON value (an empty object on failure), so its composite behaviour
    over the filesystem is modelled as a total function `String → Json`.

JSON numbers are modelled as integers (the claims under study never
depend on float behaviour).
-/

namespace Sanity

/-- Model of a Python/JSON value as it appears in the environment store,
    in parsed response bodies and in payloads. -/
inductive Json where
  | null : Json
  | bool : Bool → Json
  | num : Int → Json
  | str : String → Json
  | arr : List Json → Json
  | obj : List (String × Json) → Json
deriving Repr

mutual

/-- Python `repr` of a value, approximated: strings are rendered inside
    single quotes without escaping.  Only used through `pyStr` below and
    never load-bearing for a claim. -/
def pyRepr : Json → String
  | .null => "None"
  | .bool true => "True"
  | .bool false => "False"
  | .num n => toString n
  | .str s => "\x27" ++ s ++ "\x27"
  | .arr xs => "[" ++ pyReprList xs ++ "]"
  | .obj fs => "\x7b" ++ pyReprFields fs ++ "\x7d"

/-- Comma-separated reprs of the elements of a JSON array. -/
def pyReprList : List Json → String
  | [] => ""
  | [j] => pyRepr j
  | j :: rest => pyRepr j ++ ", " ++ pyReprList rest

/-- Comma-separated `key: value` reprs of the fields of a JSON object. -/
def pyReprFields : List (String × Json) → String
  | [] => ""
  | [(k, v)] => "\x27" ++ k ++ "\x27: " ++ pyRepr v
  | (k, v) :: rest => "\x27" ++ k ++ "\x27: " ++ pyRepr v ++ ", " ++ pyReprFields rest

end

/-- Python `str()` coercion: identity on strings, `repr`-like otherwise. -/
def pyStr : Json → String
  | .str s => s
  | j => pyRepr j

/-- The Environment Store `env_vars`: a mutable string-keyed mapping,
    modelled as an association list threaded through the run. -/
abbrev Env := List (String × Json)

/-- Python `dict` lookup (`d[k]` / `d.get(k)` support): first binding wins
    (the store never holds duplicate keys when built by `envSet`). -/
def envGet : Env → String → Option Json
  | [], _ => none
  | (k', v) :: rest, k => if k' = k then some v else envGet rest k

/-- Python `dict` assignment `d[k] = v`: replace the existing binding or
    append a new one. -/
def envSet : Env → String → Json → Env
  | [], k, v => [(k, v)]
  | (k', v') :: rest, k, v =>
    if k' = k then (k, v) :: rest else (k', v') :: envSet rest k v

/-- `str(env_vars.get(k, ""))`: the store value coerced with `str`, or the
    empty string when the key is absent. -/
def envGetStr (env : Env) (k : String) : String :=
  match envGet env k with
  | some v => pyStr v
  | none => ""

/-- Python `str.replace` on character lists: leftmost non-overlapping
    occurrences of `pat` are replaced by `rep`.  The scan is driven by a
    fuel counter so the definition is structurally recursive; one unit of
    fuel per input character always suffices because each step consumes
    at least one character.  The empty pattern (which the program never
    uses: its patterns are the two fixed placeholder tokens) is treated
    as matching nowhere. -/
def replaceLoop (pat rep : List Char) : Nat → List Char → List Char
  | 0, s => s
  | _ + 1, [] => []
  | fuel + 1, c :: rest =>
    if pat ≠ [] ∧ pat.isPrefixOf (c :: rest) then
      rep ++ replaceLoop pat rep fuel ((c :: rest).drop pat.length)
    else
      c :: replaceLoop pat rep fuel rest

/-- `s.replace(pat, rep)` lifted to `String`. -/
def pyReplace (s pat rep : String) : String :=
  String.mk (replaceLoop pat.data rep.data s.data.length s.data)

/-- Does `pat` occur as a contiguous substring of `s`?  (Executable test
    used to state side conditions on substitution.) -/
def containsSub (pat : List Char) : List Char → Bool
  | [] => pat.isEmpty
  | c :: rest => pat.isPrefixOf (c :: rest) || containsSub pat rest

/-- Python `str.upper()`: upper-case every character. -/
def pyUpper (s : String) : String :=
  String.mk (s.data.map Char.toUpper)

/-- Python `str.split(c)` for a one-character separator, on character
    lists: splitting the empty string gives one empty group, and every
    occurrence of the separator closes the current group. -/
def splitOnChar (c : Char) : List Char → List (List Char)
  | [] => [[]]
  | d :: rest =>
    let groups := splitOnChar c rest
    if d = c then [] :: groups
    else
      match groups with
      | [] => [[d]]
      | g :: gs => (d :: g) :: gs

/-- `path.split(".")` as used on `set_env` extraction paths. -/
def pySplitDot (path : String) : List String :=
  (splitOnChar (Char.ofNat 0x2e) path.data).map String.mk

/-- The literal placeholder token for `lat` (double braces around the name). -/
def latToken : String := "\x7b\x7blat\x7d\x7d"

/-- The literal placeholder token for `lon`. -/
def lonToken : String := "\x7b\x7blon\x7d\x7d"

/-- Template Substitution as implemented at `sanity.py` lines 50-52:
    `str(v).replace("\x7b\x7blat\x7d\x7d", str(env_vars.get("lat", "")))
          .replace("\x7b\x7blon\x7d\x7d", str(env_vars.get("lon", "")))`.
    Exactly the two fixed tokens are processed, `lat` first, then `lon`
    over the intermediate result. -/
def substitute (s : String) (env : Env) : String :=
  pyReplace (pyReplace s latToken (envGetStr env "lat")) lonToken (envGetStr env "lon")

/-- One declared Step of the configuration (one entry of `apis`).  Fields
    follow the data model: `params` values are strings possibly holding
    placeholders, `payload_file` and `set_env` are optional, and each
    `set_env` entry maps a target variable name to a dotted path string. -/
structure Step where
  name : String
  url : String
  method : String
  params : List (String × String)
  headers : List (String × String)
  payload_file : Option String
  set_env : Option (List (String × String))
deriving Repr

/-- The result of `response.status_code` / `response.json()` for one
    completed HTTP exchange.  `bodyJson = none` means the body is not
    valid JSON, so `response.json()` raises. -/
structure HttpResponse where
  status_code : Nat
  bodyJson : Option Json
deriving Repr

/-- The HTTP client oracle: method, url, resolved params, headers and the
    optional JSON body, to either a response or a raised exception text. -/
abbrev Http :=
  String → String → List (String × String) → List (String × String) →
    Option Json → Except String HttpResponse

/-- An HTTP client that answers every request with the same response. -/
def constOracle (resp : HttpResponse) : Http :=
  fun _ _ _ _ _ => Except.ok resp

/-- The `Response` field of a Result: the JSON-decoded body on the
    PASS/FAIL path, `str(e)` on the ERROR path. -/
inductive ResultBody where
  | json : Json → ResultBody
  | errText : String → ResultBody
deriving Repr

/-- One per-step Result record as returned by `fetch_api_data`:
    `responseCode = none` models the sentinel `"N/A"` used for ERROR. -/
structure ApiResult where
  apiName : String
  status : String
  responseCode : Option Nat
  response : ResultBody
deriving Repr

/-- Line 50-52: the dict comprehension resolving every `params` value via
    Template Substitution against the current store. -/
def resolveParams (params : List (String × String)) (env : Env) : List (String × String) :=
  params.map (fun p => (p.1, substitute p.2 env))

/-- Lines 54-57: when the method upper-cases to POST and a `payload_file`
    is declared, build the payload path from `env_vars["payload_dir"]`
    (a raising indexed lookup: absent key raises KeyError, a non-string
    value makes `os.path.join` raise TypeError) and load the payload;
    otherwise the payload stays `None`. -/
def computePayload (fs : String → Json) (api : Step) (env : Env) :
    Except String (Option Json) :=
  if pyUpper api.method = "POST" then
    match api.payload_file with
    | some pfile =>
      match envGet env "payload_dir" with
      | some (Json.str d) => Except.ok (some (fs (d ++ "/" ++ pfile)))
      | some _ => Except.error "TypeError: payload_dir is not a string path"
      | none => Except.error "KeyError: payload_dir"
    | none => Except.ok none
  else Except.ok none

/-- Lines 64-66: the `set_env` loop.  Each path is split on `.`, the last
    segment is looked up with `response_json.get(keys[-1], "")` — a
    top-level lookup defaulting to the empty string — and the value is
    stored at the target key.  When the parsed body is not a JSON object
    the `.get` call raises AttributeError on the first processed pair. -/
def setEnvLoop (rj : Json) : List (String × String) → Env → Except String Env
  | [], env => Except.ok env
  | (key, path) :: rest, env =>
    match (pySplitDot path).getLast? with
    | none => setEnvLoop rj rest (envSet env key (Json.str ""))
    | some seg =>
      match rj with
      | .obj fields =>
        setEnvLoop rj rest (envSet env key ((envGet fields seg).getD (Json.str "")))
      | _ => Except.error "AttributeError: get called on non-dict response JSON"

/-- Lines 62-66: when `set_env` is present, parse the body (raising when
    it is not valid JSON) and run the extraction loop; otherwise the
    store is left untouched. -/
def applySetEnv (api : Step) (resp : HttpResponse) (env : Env) : Except String Env :=
  match api.set_env with
  | none => Except.ok env
  | some pairs =>
    match resp.bodyJson with
    | none => Except.error "JSONDecodeError: response body is not valid JSON"
    | some rj => setEnvLoop rj pairs env

/-- The value the loop stores for one `set_env` pair against an object
    body with the given `fields`: the last dotted segment of `path`
    looked up top-level, defaulting to the empty string. -/
def extractVal (fields : List (String × Json)) (path : String) : Json :=
  match (pySplitDot path).getLast? with
  | none => Json.str ""
  | some seg => (envGet fields seg).getD (Json.str "")

/-- The portion of `fetch_api_data` after the payload is known: issue the
    request (line 59), process `set_env` (lines 62-66) and build the
    success record (lines 68-73), whose `Response` field re-parses the
    body and hence raises on a non-JSON body even without `set_env`. -/
def stepRequest (http : Http) (api : Step) (env : Env) (payload : Option Json) :
    Except String (ApiResult × Env) :=
  match http api.method api.url (resolveParams api.params env) api.headers payload with
  | Except.error e => Except.error e
  | Except.ok resp =>
    match applySetEnv api resp env with
    | Except.error e => Except.error e
    | Except.ok env' =>
      match resp.bodyJson with
      | none => Except.error "JSONDecodeError: response body is not valid JSON"
      | some rj =>
        Except.ok
          ({ apiName := api.name
           , status := if resp.status_code = 200 then "PASS" else "FAIL"
           , responseCode := some resp.status_code
           , response := ResultBody.json rj }, env')

/-- The body of the `try:` block of `fetch_api_data` (lines 43-73), as a
    raising computation over the oracles. -/
def fetch_api_data_inner (http : Http) (fs : String → Json) (api : Step) (env : Env) :
    Except String (ApiResult × Env) :=
  match computePayload fs api env with
  | Except.error e => Except.error e
  | Except.ok payload => stepRequest http api env payload

/-- `fetch_api_data(api, env_vars)` (lines 39-81): run the step; any
    exception is caught by the `except` clause and converted into an
    ERROR record carrying `str(e)`, leaving the store as it was. -/
def fetch_api_data (http : Http) (fs : String → Json) (api : Step) (env : Env) :
    ApiResult × Env :=
  match fetch_api_data_inner http fs api env with
  | Except.ok out => out
  | Except.error e =>
    ({ apiName := api.name
     , status := "ERROR"
     , responseCode := none
     , response := ResultBody.errText e }, env)

/-- The orchestrator loop of `main` (lines 129-133): execute the steps in
    declaration order, appending one Result per step and threading the
    mutable store. -/
def runSteps (http : Http) (fs : String → Json) :
    List Step → Env → List ApiResult × Env
  | [], env => ([], env)
  | api :: rest, env =>
    let out := fetch_api_data http fs api env
    let tail := runSteps http fs rest out.2
    (out.1 :: tail.1, tail.2)

/-- The cumulative effect of the `set_env` loop over an object body: fold
    `envSet` with the extracted value across the pairs in order. -/
def applyPairs (fields : List (String × Json)) (pairs : List (String × String))
    (env : Env) : Env :=
  pairs.foldl (fun e pr => envSet e pr.1 (extractVal fields pr.2)) env

/-- A payload loader over an empty filesystem: every read yields the empty
    object, exactly what `load_payload` returns for a missing file. -/
def emptyFs : String → Json := fun _ => Json.obj []

/-- An HTTP client whose every request raises a connection error. -/
def refusedOracle : Http := fun _ _ _ _ _ => Except.error "connection refused"

/-- A plain GET step with no chaining, used to instantiate theorems. -/
def getStep : Step :=
  { name := "alpha", url := "http://a", method := "GET", params := []
  , headers := [], payload_file := none, set_env := none }

/-- A second plain GET step. -/
def getStep2 : Step := { getStep with name := "beta" }

/-- A POST step declaring a payload file. -/
def postStep : Step :=
  { getStep with name := "gamma", method := "POST", payload_file := some "body.json" }

/-- A step with one `set_env` extraction rule using a dotted path. -/
def extractStep : Step :=
  { getStep with name := "delta", set_env := some [("t", "coord.lat")] }

/-- A 200 response whose JSON body holds a nested `coord.lat` and a
    different top-level `lat`, as in the spec's extraction example. -/
def coordResp : HttpResponse :=
  { status_code := 200
  , bodyJson := some (Json.obj [("coord", Json.obj [("lat", Json.num 10)]), ("lat", Json.num 7)]) }

/-- A 200 response whose body is valid JSON but not an object. -/
def listResp : HttpResponse := { status_code := 200, bodyJson := some (Json.arr []) }

/-- A 200 response whose body is not valid JSON. -/
def badBodyResp : HttpResponse := { status_code := 200, bodyJson := none }

/-- A 404 response with a JSON object body. -/
def notFoundResp : HttpResponse := { status_code := 404, bodyJson := some (Json.obj []) }

/-- A 200 response with an empty JSON object body. -/
def okObjResp : HttpResponse := { status_code := 200, bodyJson := some (Json.obj []) }

/-- A POST step that declares no payload file. -/
def postNoFile : Step := { getStep with name := "epsilon", method := "POST" }

/-- The Result produced for `getStep` when the oracle answers with
    `notFoundResp`. -/
def failRecord : ApiResult :=
  { apiName := "alpha", status := "FAIL", responseCode := some 404
  , response := ResultBody.json (Json.obj []) }

/-! ### Library lemmas about the embedded primitives -/

theorem stringMk_data (s : String) : String.mk s.data = s := rfl

theorem replaceLoop_nil (pat rep : List Char) (fuel : Nat) :
    replaceLoop pat rep fuel [] = [] := by
  cases fuel <;> rfl

theorem replaceLoop_self (pat rep : List Char) (h : pat ≠ []) :
    replaceLoop pat rep pat.length pat = rep := by
  cases pat with
  | nil => exact absurd rfl h
  | cons c cs =>
    have hpre : (c :: cs).isPrefixOf (c :: cs) = true := by
      simp [List.isPrefixOf_iff_prefix]
    simp [replaceLoop, hpre, replaceLoop_nil, List.drop_length]

theorem replaceLoop_no_occ (pat rep : List Char) (s : List Char)
    (h : containsSub pat s = false) : ∀ fuel, replaceLoop pat rep fuel s = s := by
  induction s with
  | nil => intro fuel; exact replaceLoop_nil pat rep fuel
  | cons c rest ih =>
    intro fuel
    simp only [containsSub, Bool.or_eq_false_iff] at h
    cases fuel with
    | zero => rfl
    | succ n => simp [replaceLoop, h.1, ih h.2]

theorem pyReplace_self (pat rep : String) (h : pat.data ≠ []) :
    pyReplace pat pat rep = rep := by
  unfold pyReplace
  rw [replaceLoop_self pat.data rep.data h]

theorem pyReplace_no_occ (s pat rep : String)
    (h : containsSub pat.data s.data = false) : pyReplace s pat rep = s := by
  unfold pyReplace
  rw [replaceLoop_no_occ pat.data rep.data s.data h]

theorem envGet_envSet_self (env : Env) (k : String) (v : Json) :
    envGet (envSet env k v) k = some v := by
  induction env with
  | nil => simp [envSet, envGet]
  | cons p rest ih =>
    obtain ⟨k0, v0⟩ := p
    by_cases hk : k0 = k
    · subst hk; simp [envSet, envGet]
    · simp [envSet, envGet, hk, ih]

theorem envGet_envSet_ne (env : Env) (k k' : String) (v : Json) (h : k ≠ k') :
    envGet (envSet env k v) k' = envGet env k' := by
  induction env with
  | nil => simp [envSet, envGet, h]
  | cons p rest ih =>
    obtain ⟨k0, v0⟩ := p
    by_cases hk : k0 = k
    · subst hk; simp [envSet, envGet, h]
    · simp [envSet, envGet, hk, ih]

theorem setEnvLoop_obj (fields : List (String × Json)) (pairs : List (String × String))
    (env : Env) :
    setEnvLoop (Json.obj fields) pairs env = Except.ok (applyPairs fields pairs env) := by
  induction pairs generalizing env with
  | nil => rfl
  | cons pr rest ih =>
    obtain ⟨key, path⟩ := pr
    cases hl : (pySplitDot path).getLast? with
    | none => simp [setEnvLoop, hl, ih, applyPairs, extractVal]
    | some seg => simp [setEnvLoop, hl, ih, applyPairs, extractVal]

theorem setEnvLoop_frame (rj : Json) (pairs : List (String × String))
    (env env' : Env) (k : String) :
    k ∉ pairs.map Prod.fst → setEnvLoop rj pairs env = Except.ok env' →
    envGet env' k = envGet env k := by
  induction pairs generalizing env with
  | nil =>
    intro _ h
    simp only [setEnvLoop, Except.ok.injEq] at h
    rw [h]
  | cons pr rest ih =>
    obtain ⟨key, path⟩ := pr
    intro hk h
    simp only [List.map_cons, List.mem_cons, not_or] at hk
    obtain ⟨hk1, hk2⟩ := hk
    cases hl : (pySplitDot path).getLast? with
    | none =>
      rw [setEnvLoop, hl] at h
      rw [ih _ hk2 h, envGet_envSet_ne _ _ _ _ (Ne.symm hk1)]
    | some seg =>
      rw [setEnvLoop, hl] at h
      cases rj with
      | obj fields =>
        rw [ih _ hk2 h, envGet_envSet_ne _ _ _ _ (Ne.symm hk1)]
      | null => cases h
      | bool b => cases h
      | num n => cases h
      | str s => cases h
      | arr xs => cases h

theorem applyPairs_frame (fields : List (String × Json)) (pairs : List (String × String))
    (env : Env) (k : String) :
    k ∉ pairs.map Prod.fst → envGet (applyPairs fields pairs env) k = envGet env k := by
  induction pairs generalizing env with
  | nil => intro _; rfl
  | cons pr rest ih =>
    intro hk
    simp only [List.map_cons, List.mem_cons, not_or] at hk
    have step : applyPairs fields (pr :: rest) env =
        applyPairs fields rest (envSet env pr.1 (extractVal fields pr.2)) := rfl
    rw [step, ih _ hk.2, envGet_envSet_ne _ _ _ _ (Ne.symm hk.1)]

theorem applyPairs_lookup (fields : List (String × Json)) (pairs : List (String × String))
    (env : Env) (t p : String) :
    (pairs.map Prod.fst).Nodup → (t, p) ∈ pairs →
    envGet (applyPairs fields pairs env) t = some (extractVal fields p) := by
  induction pairs generalizing env with
  | nil => intro _ hm; cases hm
  | cons pr rest ih =>
    intro hnd hm
    rw [List.map_cons, List.nodup_cons] at hnd
    have step : applyPairs fields (pr :: rest) env =
        applyPairs fields rest (envSet env pr.1 (extractVal fields pr.2)) := rfl
    rcases List.mem_cons.mp hm with heq | hmem
    · obtain ⟨a, b⟩ := pr
      obtain ⟨rfl, rfl⟩ : t = a ∧ p = b := by
        exact ⟨congrArg Prod.fst heq, congrArg Prod.snd heq⟩
      rw [step, applyPairs_frame _ _ _ _ hnd.1, envGet_envSet_self]
    · rw [step]
      exact ih _ hnd.2 hmem

/-- Case analysis on the store returned by one executor invocation: it is
    either unchanged, or it is the result of a successful `set_env` loop. -/
theorem fetch_env_spec (http : Http) (fs : String → Json) (api : Step) (env : Env) :
    (fetch_api_data http fs api env).2 = env ∨
    ∃ pairs rj env', api.set_env = some pairs ∧
      setEnvLoop rj pairs env = Except.ok env' ∧
      (fetch_api_data http fs api env).2 = env' := by
  unfold fetch_api_data fetch_api_data_inner stepRequest
  cases hp : computePayload fs api env with
  | error e => simp
  | ok payload =>
    cases hr : http api.method api.url (resolveParams api.params env) api.headers payload with
    | error e => simp [hr]
    | ok resp =>
      cases hse : api.set_env with
      | none =>
        cases hb : resp.bodyJson with
        | none => simp [hr, applySetEnv, hse, hb]
        | some rj => simp [hr, applySetEnv, hse, hb]
      | some pairs =>
        cases hb : resp.bodyJson with
        | none => simp [hr, applySetEnv, hse, hb]
        | some rj =>
          cases hloop : setEnvLoop rj pairs env with
          | error e => simp [hr, applySetEnv, hse, hb, hloop]
          | ok env' =>
            right
            refine ⟨pairs, rj, env', rfl, hloop, ?_⟩
            simp [hr, applySetEnv, hse, hb, hloop]

/-- Every Result record carries the step's declared name, on the success
    path and on the ERROR path alike. -/
theorem fetch_apiName (http : Http) (fs : String → Json) (api : Step) (env : Env) :
    (fetch_api_data http fs api env).1.apiName = api.name := by
  unfold fetch_api_data fetch_api_data_inner stepRequest
  cases hp : computePayload fs api env with
  | error e => rfl
  | ok payload =>
    cases hr : http api.method api.url (resolveParams api.params env) api.headers payload with
    | error e => simp [hr]
    | ok resp =>
      cases hs : applySetEnv api resp env with
      | error e => simp [hr, hs]
      | ok env' =>
        cases hb : resp.bodyJson with
        | none => simp [hr, hs, hb]
        | some rj => simp [hr, hs, hb]

/-! ### Claim theorems -/

/-- C1: for every oracle behaviour, step list and initial store, the
    orchestrator produces exactly one Result per declared Step — the
    Result list has the same length as the step list and carries the
    step names in declaration order — so a failing or erroring step
    never halts the run. -/
theorem C1_results_match_steps (http : Http) (fs : String → Json)
    (steps : List Step) (env : Env) :
    (runSteps http fs steps env).1.length = steps.length ∧
    (runSteps http fs steps env).1.map ApiResult.apiName = steps.map Step.name := by
  induction steps generalizing env with
  | nil => exact ⟨rfl, rfl⟩
  | cons api rest ih =>
    refine ⟨?_, ?_⟩
    · simp only [runSteps, List.length_cons]
      rw [(ih _).1]
    · simp only [runSteps, List.map_cons]
      rw [(ih _).2, fetch_apiName]

/-- C2 (counterexample): substitution does not handle arbitrary variable
    names — with the store mapping `temp` to `"5"`, the placeholder
    token for `temp` is left verbatim instead of being replaced. -/
theorem C2_counterexample :
    substitute "\x7b\x7btemp\x7d\x7d" [("temp", Json.str "5")] =
      "\x7b\x7btemp\x7d\x7d" ∧
    substitute "\x7b\x7btemp\x7d\x7d" [("temp", Json.str "5")] ≠ "5" := by
  constructor
  · decide
  · decide

/-- C2 (amended): substitution processes exactly the two fixed tokens:
    the `lat` token is replaced by the store's string-coerced `lat` value
    (provided that value does not itself contain the `lon` token, which
    the second sequential replace would rewrite), the `lon` token is
    replaced by the store's string-coerced `lon` value, and a placeholder
    with any other name, such as `temp`, is left verbatim whatever the
    store holds.  Absent keys coerce to the empty string via
    `envGetStr`. -/
theorem C2_fixed_tokens_only (env : Env)
    (h : containsSub lonToken.data (envGetStr env "lat").data = false) :
    substitute latToken env = envGetStr env "lat" ∧
    substitute lonToken env = envGetStr env "lon" ∧
    substitute "\x7b\x7btemp\x7d\x7d" env = "\x7b\x7btemp\x7d\x7d" := by
  refine ⟨?_, ?_, ?_⟩
  · unfold substitute
    rw [pyReplace_self latToken (envGetStr env "lat") (by decide),
        pyReplace_no_occ (envGetStr env "lat") lonToken (envGetStr env "lon") h]
  · unfold substitute
    rw [pyReplace_no_occ lonToken latToken (envGetStr env "lat") (by decide),
        pyReplace_self lonToken (envGetStr env "lon") (by decide)]
  · unfold substitute
    rw [pyReplace_no_occ "\x7b\x7btemp\x7d\x7d" latToken (envGetStr env "lat") (by decide),
        pyReplace_no_occ "\x7b\x7btemp\x7d\x7d" lonToken (envGetStr env "lon") (by decide)]

theorem C2_fixed_tokens_only_witness :
    containsSub lonToken.data (envGetStr [("lat", Json.str "12.3")] "lat").data = false ∧
    substitute latToken [("lat", Json.str "12.3")] =
      envGetStr [("lat", Json.str "12.3")] "lat" := by
  refine ⟨by decide, ?_⟩
  exact (C2_fixed_tokens_only [("lat", Json.str "12.3")] (by decide)).1

/-- C6 (counterexample): on the spec's own example the claimed output is
    wrong — substituting the `a` placeholder against a store mapping `a`
    to the literal `b` token and `b` to `"X"` leaves the input unchanged
    rather than producing the `b` token. -/
theorem C6_counterexample :
    substitute "\x7b\x7ba\x7d\x7d"
        [("a", Json.str "\x7b\x7bb\x7d\x7d"), ("b", Json.str "X")] ≠
      "\x7b\x7bb\x7d\x7d" ∧
    substitute "\x7b\x7ba\x7d\x7d"
        [("a", Json.str "\x7b\x7bb\x7d\x7d"), ("b", Json.str "X")] =
      "\x7b\x7ba\x7d\x7d" := by
  constructor
  · decide
  · decide

/-- C6 (amended): substitution is two sequential literal replacements,
    the `lat` token first and the `lon` token second over the result; a
    value substituted for the `lat` token IS re-scanned for the `lon`
    token (when `lat` holds the literal `lon` token the final output is
    the `lon` value), and tokens with any other name are never replaced,
    so the spec's `a`/`b` example yields the input unchanged. -/
theorem C6_sequential_rescan (v : String) :
    substitute latToken [("lat", Json.str lonToken), ("lon", Json.str v)] = v ∧
    substitute "\x7b\x7ba\x7d\x7d"
        [("a", Json.str "\x7b\x7bb\x7d\x7d"), ("b", Json.str "X")] =
      "\x7b\x7ba\x7d\x7d" := by
  constructor
  · have h1 : envGetStr [("lat", Json.str lonToken), ("lon", Json.str v)] "lat" =
        lonToken := rfl
    have h2 : envGetStr [("lat", Json.str lonToken), ("lon", Json.str v)] "lon" = v := rfl
    unfold substitute
    rw [h1, h2, pyReplace_self _ _ (by decide), pyReplace_self _ _ (by decide)]
  · decide

/-- C3 (counterexample): with a valid-JSON body that is not an object and
    `set_env` present, the executor does not store the empty string — the
    top-level lookup raises, the step is classified ERROR and the target
    key stays absent from the store. -/
theorem C3_counterexample :
    (fetch_api_data (constOracle listResp) emptyFs extractStep []).1.status = "ERROR" ∧
    envGet (fetch_api_data (constOracle listResp) emptyFs extractStep []).2 "t" = none := by
  constructor
  · rfl
  · rfl

/-- C3 (amended): when the call completes and the body parses as a JSON
    OBJECT, each `set_env` pair stores `extractVal` of its path: the path
    is split on dots, only the LAST segment is looked up as a top-level
    key of the object, and the empty string is stored when that key is
    absent.  (When the body is valid JSON but not an object the lookup
    raises instead, see the counterexample.) -/
theorem C3_shallow_extraction (fs : String → Json) (api : Step) (env : Env)
    (pairs : List (String × String)) (fields : List (String × Json))
    (resp : HttpResponse) (payload : Option Json)
    (hp : computePayload fs api env = Except.ok payload)
    (hse : api.set_env = some pairs)
    (hb : resp.bodyJson = some (Json.obj fields))
    (hnd : (pairs.map Prod.fst).Nodup) :
    ∀ t p, (t, p) ∈ pairs →
      envGet (fetch_api_data (constOracle resp) fs api env).2 t =
        some (extractVal fields p) := by
  intro t p hm
  have henv : (fetch_api_data (constOracle resp) fs api env).2 =
      applyPairs fields pairs env := by
    unfold fetch_api_data fetch_api_data_inner stepRequest constOracle
    simp [hp, applySetEnv, hse, hb, setEnvLoop_obj]
  rw [henv]
  exact applyPairs_lookup fields pairs env t p hnd hm

theorem C3_shallow_extraction_witness :
    envGet (fetch_api_data (constOracle coordResp) emptyFs extractStep []).2 "t" =
      some (Json.num 7) :=
  (C3_shallow_extraction emptyFs extractStep [] [("t", "coord.lat")]
    [("coord", Json.obj [("lat", Json.num 10)]), ("lat", Json.num 7)] coordResp none
    rfl rfl rfl (by decide) "t" "coord.lat" (by decide)).trans rfl

/-- C4 (counterexample): a step whose HTTP request completes with status
    code 200 but whose body is not valid JSON is reported as ERROR, not
    PASS — building the Result re-parses the body. -/
theorem C4_counterexample :
    (fetch_api_data (constOracle badBodyResp) emptyFs getStep []).1.status ≠ "PASS" ∧
    (fetch_api_data (constOracle badBodyResp) emptyFs getStep []).1.status = "ERROR" := by
  constructor
  · decide
  · decide

/-- C4 (amended): for every step whose whole execution completes without
    an exception — the request succeeds, the body parses as JSON and any
    `set_env` extraction succeeds — the Result records the response code,
    its status is PASS exactly when that code is 200, and otherwise FAIL;
    in particular a 404 answer with a JSON body yields FAIL with code
    404 (see the witness). -/
theorem C4_pass_iff_200 (fs : String → Json) (api : Step) (env : Env)
    (resp : HttpResponse) (r : ApiResult) (env' : Env)
    (h : fetch_api_data_inner (constOracle resp) fs api env = Except.ok (r, env')) :
    r.responseCode = some resp.status_code ∧
    (r.status = "PASS" ↔ resp.status_code = 200) ∧
    (resp.status_code ≠ 200 → r.status = "FAIL") := by
  unfold fetch_api_data_inner stepRequest constOracle at h
  cases hp : computePayload fs api env with
  | error e => rw [hp] at h; simp at h
  | ok payload =>
    simp only [hp] at h
    cases hs : applySetEnv api resp env with
    | error e => simp only [hs] at h; simp at h
    | ok env'' =>
      simp only [hs] at h
      cases hb : resp.bodyJson with
      | none => simp only [hb] at h; simp at h
      | some rj =>
        simp only [hb, Except.ok.injEq, Prod.mk.injEq] at h
        obtain ⟨h3, h4⟩ := h
        subst h3
        by_cases h200 : resp.status_code = 200
        · refine ⟨rfl, ?_, ?_⟩
          · show (if resp.status_code = 200 then "PASS" else "FAIL") = "PASS" ↔ _
            rw [if_pos h200]
            exact ⟨fun _ => h200, fun _ => rfl⟩
          · intro hne; exact absurd h200 hne
        · refine ⟨rfl, ?_, ?_⟩
          · show (if resp.status_code = 200 then "PASS" else "FAIL") = "PASS" ↔ _
            rw [if_neg h200]
            exact ⟨fun hfp => absurd hfp (by decide), fun hc => absurd hc h200⟩
          · intro hne
            show (if resp.status_code = 200 then "PASS" else "FAIL") = "FAIL"
            rw [if_neg h200]

theorem C4_pass_iff_200_witness :
    failRecord.responseCode = some notFoundResp.status_code ∧
    (failRecord.status = "PASS" ↔ notFoundResp.status_code = 200) ∧
    (notFoundResp.status_code ≠ 200 → failRecord.status = "FAIL") :=
  C4_pass_iff_200 emptyFs getStep [] notFoundResp failRecord [] rfl

/-- C5: an exception anywhere inside the step — parameter resolution,
    payload lookup, the HTTP request, body parsing or `set_env`
    extraction — is caught by the executor and converted into an ERROR
    Result whose body is the error description, the store is left in its
    prior state, and the orchestrator still executes the remaining steps
    from that prior store. -/
theorem C5_exceptions_contained (http : Http) (fs : String → Json) (api : Step)
    (env : Env) (rest : List Step) (e : String)
    (h : fetch_api_data_inner http fs api env = Except.error e) :
    fetch_api_data http fs api env =
      ({ apiName := api.name, status := "ERROR", responseCode := none,
         response := ResultBody.errText e }, env) ∧
    (runSteps http fs (api :: rest) env).1 =
      { apiName := api.name, status := "ERROR", responseCode := none,
        response := ResultBody.errText e } :: (runSteps http fs rest env).1 := by
  have h1 : fetch_api_data http fs api env =
      ({ apiName := api.name, status := "ERROR", responseCode := none,
         response := ResultBody.errText e }, env) := by
    unfold fetch_api_data
    rw [h]
  refine ⟨h1, ?_⟩
  simp only [runSteps, h1]

theorem C5_exceptions_contained_witness :
    fetch_api_data refusedOracle emptyFs getStep [] =
      ({ apiName := "alpha", status := "ERROR", responseCode := none,
         response := ResultBody.errText "connection refused" }, []) ∧
    (runSteps refusedOracle emptyFs [getStep, getStep2] []).1 =
      { apiName := "alpha", status := "ERROR", responseCode := none,
        response := ResultBody.errText "connection refused" } ::
        (runSteps refusedOracle emptyFs [getStep2] []).1 :=
  C5_exceptions_contained refusedOracle emptyFs getStep [] [getStep2]
    "connection refused" rfl

/-- C7 (counterexample): a POST step naming a payload file while the
    store lacks `payload_dir` is aborted — the raising indexed read makes
    the executor classify the step ERROR with a KeyError description,
    refuting the claim that store reads never raise. -/
theorem C7_counterexample :
    (fetch_api_data (constOracle coordResp) emptyFs postStep []).1.status = "ERROR" ∧
    (fetch_api_data (constOracle coordResp) emptyFs postStep []).1.response =
      ResultBody.errText "KeyError: payload_dir" := by
  constructor
  · decide
  · rfl

/-- C7 (amended): placeholder resolution and `set_env` extraction read
    absent keys as the empty string without raising — substituting the
    `lat` token against a store with neither coordinate yields the empty
    string, and an extraction path whose final segment is absent stores
    the empty string — but the payload-directory read indexes the store
    directly: a POST step naming a payload file while `payload_dir` is
    absent raises KeyError inside the executor and the step is
    classified ERROR with the store unchanged. -/
theorem C7_absent_reads (env0 : Env) :
    (∀ env, envGet env "lat" = none → envGet env "lon" = none →
      substitute latToken env = "") ∧
    (∀ (fields : List (String × Json)) (path seg : String),
      (pySplitDot path).getLast? = some seg → envGet fields seg = none →
      extractVal fields path = Json.str "") ∧
    (∀ (http : Http) (fs : String → Json) (api : Step) (pf : String),
      pyUpper api.method = "POST" → api.payload_file = some pf →
      envGet env0 "payload_dir" = none →
      fetch_api_data http fs api env0 =
        ({ apiName := api.name, status := "ERROR", responseCode := none,
           response := ResultBody.errText "KeyError: payload_dir" }, env0)) := by
  refine ⟨?_, ?_, ?_⟩
  · intro env h1 h2
    have e1 : envGetStr env "lat" = "" := by unfold envGetStr; rw [h1]
    have e2 : envGetStr env "lon" = "" := by unfold envGetStr; rw [h2]
    unfold substitute
    rw [e1, e2, pyReplace_self latToken "" (by decide)]
    exact pyReplace_no_occ "" lonToken "" (by decide)
  · intro fields path seg hl hn
    simp [extractVal, hl, hn]
  · intro http fs api pf hm hpf hnone
    have hcp : computePayload fs api env0 =
        Except.error "KeyError: payload_dir" := by
      unfold computePayload
      rw [if_pos hm, hpf, hnone]
    unfold fetch_api_data fetch_api_data_inner
    rw [hcp]

theorem C7_absent_reads_witness :
    substitute latToken [("x", Json.num 1)] = "" ∧
    extractVal [("coord", Json.obj [])] "coord.lat" = Json.str "" ∧
    fetch_api_data (constOracle coordResp) emptyFs postStep [] =
      ({ apiName := "gamma", status := "ERROR", responseCode := none,
         response := ResultBody.errText "KeyError: payload_dir" }, []) := by
  refine ⟨?_, ?_, ?_⟩
  · exact (C7_absent_reads []).1 [("x", Json.num 1)] rfl rfl
  · exact (C7_absent_reads []).2.1 [("coord", Json.obj [])] "coord.lat" "lat" rfl rfl
  · exact (C7_absent_reads []).2.2 (constOracle coordResp) emptyFs postStep
      "body.json" rfl rfl rfl

/-- C8 (counterexample): a POST step naming a payload file while the
    store lacks `payload_dir` does not proceed without error — even with
    an oracle that would answer 200 with a JSON body, the step is
    classified ERROR before any request is made. -/
theorem C8_counterexample :
    (fetch_api_data (constOracle okObjResp) emptyFs postStep []).1.status = "ERROR" := by
  decide

/-- C8 (amended): a step that declares no payload file — whatever its
    method — sends no body: the payload stage contributes `none` and
    raises nothing, so execution continues into the request itself.  But
    when a POST step DOES name a payload file while `payload_dir` is
    absent from the store, the indexed read raises and the step is
    classified ERROR. -/
theorem C8_missing_payload_config :
    (∀ (http : Http) (fs : String → Json) (api : Step) (env : Env),
      api.payload_file = none →
      fetch_api_data_inner http fs api env = stepRequest http api env none) ∧
    (∀ (http : Http) (fs : String → Json) (api : Step) (env : Env) (pf : String),
      pyUpper api.method = "POST" → api.payload_file = some pf →
      envGet env "payload_dir" = none →
      (fetch_api_data http fs api env).1.status = "ERROR") := by
  constructor
  · intro http fs api env hpf
    unfold fetch_api_data_inner computePayload
    by_cases hm : pyUpper api.method = "POST"
    · rw [if_pos hm, hpf]
    · rw [if_neg hm]
  · intro http fs api env pf hm hpf hnone
    have hcp : computePayload fs api env =
        Except.error "KeyError: payload_dir" := by
      unfold computePayload
      rw [if_pos hm, hpf, hnone]
    unfold fetch_api_data fetch_api_data_inner
    rw [hcp]

theorem C8_missing_payload_config_witness :
    fetch_api_data_inner (constOracle okObjResp) emptyFs postNoFile [] =
      stepRequest (constOracle okObjResp) postNoFile [] none ∧
    (fetch_api_data (constOracle okObjResp) emptyFs postStep []).1.status = "ERROR" := by
  refine ⟨?_, ?_⟩
  · exact C8_missing_payload_config.1 (constOracle okObjResp) emptyFs postNoFile [] rfl
  · exact C8_missing_payload_config.2 (constOracle okObjResp) emptyFs postStep []
      "body.json" rfl rfl rfl

/-- C9: whenever every issued request completes with a response whose
    body is not valid JSON, the step's Result status is ERROR regardless
    of the status code and of `set_env`, because building the Result
    always parses the body; a 200 response with a non-JSON body is
    therefore never reported as PASS (see the witness at code 200). -/
theorem C9_nonjson_body_is_error (fs : String → Json) (api : Step) (env : Env)
    (resp : HttpResponse) (h : resp.bodyJson = none) :
    (fetch_api_data (constOracle resp) fs api env).1.status = "ERROR" := by
  unfold fetch_api_data fetch_api_data_inner stepRequest constOracle
  cases hp : computePayload fs api env with
  | error e => rfl
  | ok payload =>
    cases hs : applySetEnv api resp env with
    | error e => simp [hs]
    | ok env' => simp [hs, h]

theorem C9_nonjson_body_is_error_witness :
    (fetch_api_data (constOracle badBodyResp) emptyFs getStep []).1.status = "ERROR" :=
  C9_nonjson_body_is_error emptyFs getStep [] badBodyResp rfl

/-- C10: one executor invocation can change the store only at the target
    names of the step's `set_env` mapping — every key that is not a
    target keeps its prior value — and a step without `set_env` returns
    the store entirely unchanged. -/
theorem C10_store_frame (http : Http) (fs : String → Json) (api : Step)
    (env : Env) (k : String)
    (h : ∀ pairs, api.set_env = some pairs → k ∉ pairs.map Prod.fst) :
    envGet (fetch_api_data http fs api env).2 k = envGet env k ∧
    (api.set_env = none → (fetch_api_data http fs api env).2 = env) := by
  rcases fetch_env_spec http fs api env with heq | ⟨pairs, rj, env', hse, hloop, heq⟩
  · rw [heq]
    exact ⟨rfl, fun _ => rfl⟩
  · refine ⟨?_, ?_⟩
    · rw [heq]
      exact setEnvLoop_frame rj pairs env env' k (h pairs hse) hloop
    · intro hnone
      rw [hse] at hnone
      cases hnone

theorem C10_store_frame_witness :
    envGet (fetch_api_data (constOracle coordResp) emptyFs extractStep
        [("z", Json.str "keep")]).2 "z" =
      envGet [("z", Json.str "keep")] "z" ∧
    (extractStep.set_env = none →
      (fetch_api_data (constOracle coordResp) emptyFs extractStep
        [("z", Json.str "keep")]).2 = [("z", Json.str "keep")]) :=
  C10_store_frame (constOracle coordResp) emptyFs extractStep
    [("z", Json.str "keep")] "z"
    (by
      intro pairs hp
      have hpairs : pairs = [("t", "coord.lat")] := by
        have : some [("t", "coord.lat")] = some pairs := hp
        exact (Option.some.injEq _ _ ▸ this).symm
      rw [hpairs]
      decide)

end Sanity
